import Mathlib

/-!
Shallow embedding of the actix-web demo service in `src/main.rs`.

The service exposes:
- `POST /something` (`create_something`): three sequential `step_x` calls, each
  validating its payload, POSTing it to an external echo endpoint and returning
  the `json` field of the parsed response envelope;
- `GET /shami_momo` (`todays_shami_momo`): a constant news item;
- `GET /api/v0/teams`, `/api/v0/teams/j1`, `/api/v0/teams/j2`: constant team lists;
- startup port resolution from the `PORT` environment variable.

The external echo service and the transport are modelled by an oracle
`EchoEnv : Nat → SomeData → NetResult` giving, for each outbound-call index and
posted payload, the outcome of that call. `step_x` threads an explicit counter
of issued outbound calls.
-/

/-- The request/response payload (`struct SomeData`, main.rs lines 31-37). -/
structure SomeData where
  id : String
  name : String
deriving DecidableEq

/-- The `validator` crate checks from the derive attributes: character-count of
`id` in [1, 1000000] and of `name` in [1, 100] (main.rs lines 33, 35). -/
def SomeData.validate (d : SomeData) : Bool :=
  (decide (1 ≤ d.id.length) && decide (d.id.length ≤ 1000000)) &&
  (decide (1 ≤ d.name.length) && decide (d.name.length ≤ 100))

/-- The echo response envelope (`struct HttpBinResponse`, main.rs lines 39-49);
hash maps are modelled as association lists. -/
structure HttpBinResponse where
  args : List (String × String)
  data : String
  files : List (String × String)
  form : List (String × String)
  headers : List (String × String)
  json : SomeData
  origin : String
  url : String
deriving DecidableEq

/-- The news item (`struct News`, main.rs lines 51-55). -/
structure News where
  day : String
  content : String
deriving DecidableEq

/-- A team record (`struct Team`, main.rs lines 57-62). -/
structure Team where
  team_abbreviation : String
  active_area : String
  join_year : Nat
deriving DecidableEq

/-- Outcome of one outbound POST to the echo endpoint, as observed by `step_x`:
the send itself can fail (`SendRequestError`, line 73), reading a body chunk can
fail (`chunk?`, line 77), or a full body arrives that either parses as an
`HttpBinResponse` or does not (line 80). -/
inductive NetResult where
  | sendFail
  | chunkFail
  | ok (body : Option HttpBinResponse)
deriving DecidableEq

/-- The environment: outcome of the outbound call with a given index (number of
outbound calls already issued) and posted payload. -/
def EchoEnv : Type := Nat → SomeData → NetResult

/-- How a chain step terminates abnormally: `validationError` is the
`ErrorBadRequest` wrapping of a `validator` failure (line 67), `requestError`
covers transport failures converted via `Error::from` / `?` (lines 73, 77), and
`panicUnwrap` is the `.unwrap()` on `serde_json::from_slice` (line 80), which
panics instead of returning an error. -/
inductive StepError where
  | validationError
  | requestError
  | panicUnwrap
deriving DecidableEq

/-- One chain step (`step_x`, main.rs lines 65-82): validate the payload;
on success issue the outbound POST (consuming one call index) and map the
outcome; return the `json` field of the parsed envelope. The first component
is the updated count of issued outbound calls. -/
def step_x (env : EchoEnv) (calls : Nat) (data : SomeData) :
    Nat × Except StepError SomeData :=
  if data.validate = true then
    match env calls data with
    | NetResult.sendFail => (calls + 1, Except.error StepError.requestError)
    | NetResult.chunkFail => (calls + 1, Except.error StepError.requestError)
    | NetResult.ok none => (calls + 1, Except.error StepError.panicUnwrap)
    | NetResult.ok (some body) => (calls + 1, Except.ok body.json)
  else
    (calls, Except.error StepError.validationError)

/-- The chain handler for `POST /something` (`create_something`, main.rs lines
84-95): three sequential `step_x` calls, each feeding its output to the next;
the first error short-circuits (the `?` operator). -/
def create_something (env : EchoEnv) (some_data : SomeData) :
    Nat × Except StepError SomeData :=
  match step_x env 0 some_data with
  | (c1, Except.error e) => (c1, Except.error e)
  | (c1, Except.ok some_data_2) =>
    match step_x env c1 some_data_2 with
    | (c2, Except.error e) => (c2, Except.error e)
    | (c2, Except.ok some_data_3) =>
      match step_x env c2 some_data_3 with
      | (c3, Except.error e) => (c3, Except.error e)
      | (c3, Except.ok d) => (c3, Except.ok d)

/-- Possible JSON response bodies of the handlers (serialization is modelled
structurally: the serialized body is determined by the value). -/
inductive RespBody where
  | payload (d : SomeData)
  | news (n : News)
  | teams (ts : List Team)
deriving DecidableEq

/-- Observable outcome of handling one request: an HTTP response with a status
code (error responses carry no modelled body), or a panic of the handler. -/
inductive HttpOutcome where
  | response (status : Nat) (body : Option RespBody)
  | panicked
deriving DecidableEq

/-- HTTP-level outcome of `POST /something`: `200` with the final payload on
success (lines 92-94); `ErrorBadRequest` renders as `400`; transport errors
render as `500` (actix default for `SendRequestError`/`PayloadError`); the
`unwrap` on a malformed body panics and produces no response. -/
def create_something_response (env : EchoEnv) (d : SomeData) : Nat × HttpOutcome :=
  match create_something env d with
  | (c, Except.ok r) => (c, HttpOutcome.response 200 (some (RespBody.payload r)))
  | (c, Except.error StepError.validationError) => (c, HttpOutcome.response 400 none)
  | (c, Except.error StepError.requestError) => (c, HttpOutcome.response 500 none)
  | (c, Except.error StepError.panicUnwrap) => (c, HttpOutcome.panicked)

/-- Handler for `GET /shami_momo` (main.rs lines 97-105); the client argument is
unused, modelled by an arbitrary request index. -/
def todays_shami_momo (_client : Nat) : Nat × News :=
  (200, { day := "today", content := "Shamiko is going to go on date with Momo." })

/-- Handler for `GET /api/v0/teams` (main.rs lines 107-129). -/
def all_teams (_client : Nat) : Nat × List Team :=
  (200,
    [ { team_abbreviation := "鹿島", active_area := "茨城県", join_year := 1991 },
      { team_abbreviation := "浦和", active_area := "埼玉県", join_year := 1991 },
      { team_abbreviation := "水戸", active_area := "茨城県", join_year := 2000 } ])

/-- Handler for `GET /api/v0/teams/j1` (main.rs lines 131-149). -/
def teams_j1 (_client : Nat) : Nat × List Team :=
  (200,
    [ { team_abbreviation := "鹿島", active_area := "茨城県", join_year := 1991 },
      { team_abbreviation := "浦和", active_area := "埼玉県", join_year := 1991 } ])

/-- Handler for `GET /api/v0/teams/j2` (main.rs lines 151-165). -/
def teams_j2 (_client : Nat) : Nat × List Team :=
  (200,
    [ { team_abbreviation := "水戸", active_area := "茨城県", join_year := 2000 } ])

/-- Rust `str::parse::<u16>`: optional leading plus sign, then one or more ASCII
digits, value at most 65535; anything else fails. -/
def parseU16 (s : String) : Option Nat :=
  let cs := match s.toList with
            | '+' :: rest => rest
            | l => l
  if cs = [] then none
  else if cs.all Char.isDigit then
    let v := cs.foldl (fun a c => a * 10 + (c.toNat - 48)) 0
    if v ≤ 65535 then some v else none
  else none

/-- Startup either resolves a port and proceeds to bind, or aborts with the
panic message of `.expect(...)`. -/
inductive StartupResult where
  | started (port : Nat)
  | panicMsg (msg : String)
deriving DecidableEq

/-- Port resolution at startup (main.rs lines 172-175): read `PORT`, default to
the string `3000` when unset, parse as `u16`, abort with the message
`PORT must be a number` when parsing fails. -/
def resolvePort (envPORT : Option String) : StartupResult :=
  let s := envPORT.getD "3000"
  match parseU16 s with
  | some p => StartupResult.started p
  | none => StartupResult.panicMsg "PORT must be a number"

/-- The echo service is faithful: every call returns a well-formed envelope
whose `json` field is exactly the posted payload. -/
def faithfulEcho (env : EchoEnv) : Prop :=
  ∀ c d, ∃ body : HttpBinResponse, env c d = NetResult.ok (some body) ∧ body.json = d

/-- A concrete faithful echo environment: every call returns a well-formed
envelope echoing the posted payload in its `json` field. -/
def faithfulEnv : EchoEnv :=
  fun _ d => NetResult.ok (some
    { args := [], data := "", files := [], form := [], headers := [],
      json := d, origin := "", url := "" })

/-- Inversion of a successful step: exactly one outbound call was issued, the
input passed validation, the call returned a parsable envelope, and the result
is that envelope's `json` field. -/
lemma step_x_ok_inv {env : EchoEnv} {c : Nat} {d : SomeData} {c' : Nat} {p : SomeData}
    (h : step_x env c d = (c', Except.ok p)) :
    c' = c + 1 ∧ d.validate = true ∧
      ∃ body : HttpBinResponse, env c d = NetResult.ok (some body) ∧ body.json = p := by
  unfold step_x at h
  by_cases hv : d.validate = true
  · rw [if_pos hv] at h
    rcases he : env c d with _ | _ | b
    · rw [he] at h; simp at h
    · rw [he] at h; simp at h
    · rcases b with _ | body
      · rw [he] at h; simp at h
      · rw [he] at h
        simp only [Prod.mk.injEq, Except.ok.injEq] at h
        exact ⟨h.1.symm, hv, body, rfl, h.2⟩
  · rw [if_neg hv] at h; simp at h

/-- A step whose input fails validation issues no outbound call and reports the
validation error. -/
lemma step_x_invalid (env : EchoEnv) (c : Nat) {d : SomeData}
    (h : d.validate = false) :
    step_x env c d = (c, Except.error StepError.validationError) := by
  simp [step_x, h]

/-- C2: validation succeeds exactly when the length of `id` lies in
[1, 1000000] and the length of `name` lies in [1, 100]; a payload outside
either bound makes the chain step fail with the validation error and no
outbound call. -/
theorem validate_iff_bounds :
    (∀ d : SomeData, d.validate = true ↔
      (1 ≤ d.id.length ∧ d.id.length ≤ 1000000 ∧
       1 ≤ d.name.length ∧ d.name.length ≤ 100)) ∧
    (∀ (env : EchoEnv) (c : Nat) (d : SomeData), d.validate = false →
      step_x env c d = (c, Except.error StepError.validationError)) := by
  constructor
  · intro d
    simp [SomeData.validate, Bool.and_eq_true, decide_eq_true_eq, and_assoc]
  · intro env c d h
    exact step_x_invalid env c h

/-- C2 witness: the bounds hold for a concrete payload, and a payload with an
empty `id` concretely fails the step with a validation error. -/
theorem validate_iff_bounds_witness :
    (SomeData.validate ⟨"abc", "x"⟩ = true ↔
      (1 ≤ String.length "abc" ∧ String.length "abc" ≤ 1000000 ∧
       1 ≤ String.length "x" ∧ String.length "x" ≤ 100)) ∧
    step_x (fun _ _ => NetResult.sendFail) 0 ⟨"", "x"⟩ =
      (0, Except.error StepError.validationError) :=
  ⟨validate_iff_bounds.1 ⟨"abc", "x"⟩,
   validate_iff_bounds.2 (fun _ _ => NetResult.sendFail) 0 ⟨"", "x"⟩ (by decide)⟩

/-- C7: the list returned by the all-teams endpoint is, element for element and
in order, the list of the j1 endpoint followed by the list of the j2 endpoint;
the former has two records and the latter one. -/
theorem all_teams_eq_j1_append_j2 (cl : Nat) :
    (all_teams cl).2 = (teams_j1 cl).2 ++ (teams_j2 cl).2 ∧
    (teams_j1 cl).2.length = 2 ∧ (teams_j2 cl).2.length = 1 :=
  ⟨rfl, rfl, rfl⟩

/-- C9: the shami-momo handler returns status 200 with the same literal news
value on every call; its `day` field is the string `today` and its `content`
is the fixed string of main.rs line 100. -/
theorem shami_momo_constant :
    (∀ i j : Nat, todays_shami_momo i = todays_shami_momo j) ∧
    (∀ i : Nat, (todays_shami_momo i).1 = 200 ∧
      (todays_shami_momo i).2 =
        { day := "today",
          content := "Shamiko is going to go on date with Momo." } ∧
      (todays_shami_momo i).2.day = "today") :=
  ⟨fun _ _ => rfl, fun _ => ⟨rfl, rfl, rfl⟩⟩

/-- C8: the port is read from the single `PORT` setting and defaults to 3000
when unset; a value that does not parse as a `u16` aborts startup with the
descriptive message `PORT must be a number`; a started port is always the
parsed value of the setting. -/
theorem port_resolution :
    resolvePort none = StartupResult.started 3000 ∧
    (∀ s : String, parseU16 s = none →
      resolvePort (some s) = StartupResult.panicMsg "PORT must be a number") ∧
    (∀ (s : String) (p : Nat), resolvePort (some s) = StartupResult.started p →
      parseU16 s = some p) ∧
    parseU16 "abc" = none := by
  refine ⟨rfl, ?_, ?_, by decide⟩
  · intro s h
    simp [resolvePort, h]
  · intro s p h
    simp only [resolvePort, Option.getD_some] at h
    rcases hp : parseU16 s with _ | v
    · rw [hp] at h; simp at h
    · rw [hp] at h
      simp only [StartupResult.started.injEq] at h
      rw [h]

/-- C8 witness: the non-numeric setting `abc` concretely aborts startup with
the descriptive message, and the setting `8080` concretely starts on 8080. -/
theorem port_resolution_witness :
    resolvePort (some "abc") = StartupResult.panicMsg "PORT must be a number" ∧
    parseU16 "8080" = some 8080 :=
  ⟨port_resolution.2.1 "abc" (by decide),
   port_resolution.2.2.1 "8080" 8080 (by decide)⟩

/-- C5: a request whose payload has an empty `id` gets the client-error
response 400 with zero outbound calls made: validation runs before any network
call of the chain. -/
theorem empty_id_fast_fail (env : EchoEnv) (d : SomeData) (h : d.id = "") :
    create_something env d = (0, Except.error StepError.validationError) ∧
    create_something_response env d = (0, HttpOutcome.response 400 none) := by
  have hv : d.validate = false := by
    simp [SomeData.validate, h]
  have h1 : step_x env 0 d = (0, Except.error StepError.validationError) :=
    step_x_invalid env 0 hv
  have h2 : create_something env d = (0, Except.error StepError.validationError) := by
    simp [create_something, h1]
  exact ⟨h2, by simp [create_something_response, h2]⟩

/-- C5 witness: the payload with empty `id` and name `x`, against an
always-failing transport, concretely yields 400 and zero outbound calls. -/
theorem empty_id_fast_fail_witness :
    create_something (fun _ _ => NetResult.sendFail) ⟨"", "x"⟩ =
      (0, Except.error StepError.validationError) ∧
    create_something_response (fun _ _ => NetResult.sendFail) ⟨"", "x"⟩ =
      (0, HttpOutcome.response 400 none) :=
  empty_id_fast_fail (fun _ _ => NetResult.sendFail) ⟨"", "x"⟩ rfl

/-- C3 counterexample: against an echo service whose response body is not a
valid envelope, the chain step at a valid payload ends in the unwrap panic,
not in the request error, and the handler produces no response at all. -/
theorem malformed_body_not_request_error :
    step_x (fun _ _ => NetResult.ok none) 0 ⟨"abc", "x"⟩ =
      (1, Except.error StepError.panicUnwrap) ∧
    create_something_response (fun _ _ => NetResult.ok none) ⟨"abc", "x"⟩ =
      (1, HttpOutcome.panicked) ∧
    StepError.panicUnwrap ≠ StepError.requestError :=
  ⟨rfl, rfl, by decide⟩

/-- C3 amended: a transport failure of the outbound call (send failure or a
failed body chunk) surfaces as a recoverable request error of that request,
but a response body that does not parse as the envelope makes the step panic
via the unwrap rather than yield a request error. -/
theorem echo_parse_failure_panics :
    (∀ (env : EchoEnv) (c : Nat) (d : SomeData), d.validate = true →
      env c d = NetResult.ok none →
      step_x env c d = (c + 1, Except.error StepError.panicUnwrap)) ∧
    (∀ (env : EchoEnv) (c : Nat) (d : SomeData), d.validate = true →
      env c d = NetResult.sendFail →
      step_x env c d = (c + 1, Except.error StepError.requestError)) ∧
    (∀ (env : EchoEnv) (c : Nat) (d : SomeData), d.validate = true →
      env c d = NetResult.chunkFail →
      step_x env c d = (c + 1, Except.error StepError.requestError)) := by
  refine ⟨?_, ?_, ?_⟩ <;> (intro env c d hv he; simp [step_x, hv, he])

/-- C3 amended witness: concrete evaluations of the panic case and of the two
transport-failure cases. -/
theorem echo_parse_failure_panics_witness :
    step_x (fun _ _ => NetResult.ok none) 0 ⟨"a", "b"⟩ =
      (1, Except.error StepError.panicUnwrap) ∧
    step_x (fun _ _ => NetResult.sendFail) 0 ⟨"a", "b"⟩ =
      (1, Except.error StepError.requestError) ∧
    step_x (fun _ _ => NetResult.chunkFail) 0 ⟨"a", "b"⟩ =
      (1, Except.error StepError.requestError) :=
  ⟨echo_parse_failure_panics.1 (fun _ _ => NetResult.ok none) 0 ⟨"a", "b"⟩
      (by decide) rfl,
   echo_parse_failure_panics.2.1 (fun _ _ => NetResult.sendFail) 0 ⟨"a", "b"⟩
      (by decide) rfl,
   echo_parse_failure_panics.2.2 (fun _ _ => NetResult.chunkFail) 0 ⟨"a", "b"⟩
      (by decide) rfl⟩

/-- C4: the first failing step short-circuits the chain: an error of step one
is returned as is; an error of step two is returned with no third step run;
in particular, when the second outbound call fails at the transport, the chain
returns the request error having issued exactly two outbound calls, so no
third call is made and no partial result is returned. -/
theorem chain_short_circuit :
    (∀ (env : EchoEnv) (d : SomeData) (c : Nat) (e : StepError),
      step_x env 0 d = (c, Except.error e) →
      create_something env d = (c, Except.error e)) ∧
    (∀ (env : EchoEnv) (d p1 : SomeData) (c : Nat) (e : StepError),
      step_x env 0 d = (1, Except.ok p1) →
      step_x env 1 p1 = (c, Except.error e) →
      create_something env d = (c, Except.error e)) ∧
    (∀ (env : EchoEnv) (d p1 : SomeData),
      step_x env 0 d = (1, Except.ok p1) →
      p1.validate = true →
      env 1 p1 = NetResult.sendFail →
      create_something env d = (2, Except.error StepError.requestError)) := by
  refine ⟨?_, ?_, ?_⟩
  · intro env d c e h1
    simp [create_something, h1]
  · intro env d p1 c e h1 h2
    simp [create_something, h1, h2]
  · intro env d p1 h1 hv he
    have h2 : step_x env 1 p1 = (2, Except.error StepError.requestError) := by
      simp [step_x, hv, he]
    simp [create_something, h1, h2]

/-- C4 witness: with an environment that echoes the first call faithfully and
fails the second send, the chain concretely stops after two calls with the
request error; and with an always-failing transport it stops after one. -/
theorem chain_short_circuit_witness :
    create_something
        (fun c d => if c = 0 then faithfulEnv c d else NetResult.sendFail)
        ⟨"abc", "x"⟩ = (2, Except.error StepError.requestError) ∧
    create_something (fun _ _ => NetResult.sendFail) ⟨"abc", "x"⟩ =
      (1, Except.error StepError.requestError) :=
  ⟨chain_short_circuit.2.2
      (fun c d => if c = 0 then faithfulEnv c d else NetResult.sendFail)
      ⟨"abc", "x"⟩ ⟨"abc", "x"⟩ rfl (by decide) rfl,
   chain_short_circuit.1 (fun _ _ => NetResult.sendFail) ⟨"abc", "x"⟩ 1
      StepError.requestError rfl⟩

/-- Against a faithful echo, a step at a valid payload consumes one call and
returns the payload unchanged. -/
lemma step_x_faithful_valid {env : EchoEnv} (hf : faithfulEcho env)
    {d : SomeData} (hv : d.validate = true) (c : Nat) :
    step_x env c d = (c + 1, Except.ok d) := by
  obtain ⟨body, hb, hj⟩ := hf c d
  simp [step_x, hv, hb, hj]

/-- C6: against a faithful echo service, the chain at a valid payload issues
exactly three outbound calls and returns a payload structurally equal to the
input, with response status 200. -/
theorem echo_idempotence (env : EchoEnv) (hf : faithfulEcho env) (d : SomeData)
    (hv : d.validate = true) :
    create_something env d = (3, Except.ok d) ∧
    create_something_response env d =
      (3, HttpOutcome.response 200 (some (RespBody.payload d))) := by
  have h1 := step_x_faithful_valid hf hv 0
  have h2 := step_x_faithful_valid hf hv 1
  have h3 := step_x_faithful_valid hf hv 2
  have hc : create_something env d = (3, Except.ok d) := by
    simp [create_something, h1, h2, h3]
  exact ⟨hc, by simp [create_something_response, hc]⟩

/-- C6 witness: the concrete payload with id `abc` and name `x`, run against
the concrete faithful environment, comes back unchanged after three calls. -/
theorem echo_idempotence_witness :
    create_something faithfulEnv ⟨"abc", "x"⟩ = (3, Except.ok ⟨"abc", "x"⟩) ∧
    create_something_response faithfulEnv ⟨"abc", "x"⟩ =
      (3, HttpOutcome.response 200 (some (RespBody.payload ⟨"abc", "x"⟩))) :=
  echo_idempotence faithfulEnv
    (fun c d => ⟨{ args := [], data := "", files := [], form := [],
                   headers := [], json := d, origin := "", url := "" }, rfl, rfl⟩)
    ⟨"abc", "x"⟩ (by decide)

/-- C1: whenever the chain succeeds, it did so by exactly three sequential
steps: each step validated its input, issued one outbound call (call indices
0, 1, 2), and extracted the payload that became the next step's sole input;
the third step's payload is what is returned, with status 200, and exactly
three outbound calls were issued. -/
theorem chain_three_steps (env : EchoEnv) (d r : SomeData) (c : Nat)
    (h : create_something env d = (c, Except.ok r)) :
    c = 3 ∧ ∃ p1 p2 : SomeData,
      d.validate = true ∧ p1.validate = true ∧ p2.validate = true ∧
      step_x env 0 d = (1, Except.ok p1) ∧
      step_x env 1 p1 = (2, Except.ok p2) ∧
      step_x env 2 p2 = (3, Except.ok r) ∧
      create_something_response env d =
        (3, HttpOutcome.response 200 (some (RespBody.payload r))) := by
  have h0 := h
  unfold create_something at h
  split at h
  next c1 e heq1 => simp at h
  next c1 p1 heq1 =>
    split at h
    next c2 e heq2 => simp at h
    next c2 p2 heq2 =>
      split at h
      next c3 e heq3 => simp at h
      next c3 p3 heq3 =>
        simp only [Prod.mk.injEq, Except.ok.injEq] at h
        obtain ⟨hc1, hvd, _⟩ := step_x_ok_inv heq1
        subst hc1
        obtain ⟨hc2, hv1, _⟩ := step_x_ok_inv heq2
        subst hc2
        obtain ⟨hc3, hv2, _⟩ := step_x_ok_inv heq3
        subst hc3
        obtain ⟨hcc, hpr⟩ := h
        subst hpr
        have hc : c = 3 := by omega
        subst hc
        refine ⟨rfl, p1, p2, hvd, hv1, hv2, heq1, heq2, heq3, ?_⟩
        simp [create_something_response, h0]

/-- C1 witness: against the concrete faithful environment, the chain at the
payload with id `abc` and name `x` succeeds, and the three-step decomposition
is produced concretely. -/
theorem chain_three_steps_witness :
    3 = 3 ∧ ∃ p1 p2 : SomeData,
      SomeData.validate ⟨"abc", "x"⟩ = true ∧
      p1.validate = true ∧ p2.validate = true ∧
      step_x faithfulEnv 0 ⟨"abc", "x"⟩ = (1, Except.ok p1) ∧
      step_x faithfulEnv 1 p1 = (2, Except.ok p2) ∧
      step_x faithfulEnv 2 p2 = (3, Except.ok ⟨"abc", "x"⟩) ∧
      create_something_response faithfulEnv ⟨"abc", "x"⟩ =
        (3, HttpOutcome.response 200 (some (RespBody.payload ⟨"abc", "x"⟩))) :=
  chain_three_steps faithfulEnv ⟨"abc", "x"⟩ ⟨"abc", "x"⟩ 3 rfl

/-- C10: a validation failure is mapped to the 400 response uniformly over the
three steps: whether it is the client's payload that fails validation, or a
payload returned by the echo service as input of the second or the third step,
the handler answers with status 400. -/
theorem validation_maps_to_400_any_step :
    (∀ (env : EchoEnv) (d : SomeData), d.validate = false →
      create_something_response env d = (0, HttpOutcome.response 400 none)) ∧
    (∀ (env : EchoEnv) (d p1 : SomeData),
      step_x env 0 d = (1, Except.ok p1) → p1.validate = false →
      create_something_response env d = (1, HttpOutcome.response 400 none)) ∧
    (∀ (env : EchoEnv) (d p1 p2 : SomeData),
      step_x env 0 d = (1, Except.ok p1) →
      step_x env 1 p1 = (2, Except.ok p2) → p2.validate = false →
      create_something_response env d = (2, HttpOutcome.response 400 none)) := by
  refine ⟨?_, ?_, ?_⟩
  · intro env d hv
    have h1 : create_something env d = (0, Except.error StepError.validationError) := by
      simp [create_something, step_x_invalid env 0 hv]
    simp [create_something_response, h1]
  · intro env d p1 h1 hv
    have h2 : create_something env d = (1, Except.error StepError.validationError) := by
      simp [create_something, h1, step_x_invalid env 1 hv]
    simp [create_something_response, h2]
  · intro env d p1 p2 h1 h2 hv
    have h3 : create_something env d = (2, Except.error StepError.validationError) := by
      simp [create_something, h1, h2, step_x_invalid env 2 hv]
    simp [create_something_response, h3]

/-- C10 witness: an echo environment that returns a payload with empty `id`
makes the second step's validation fail, and the handler concretely answers
400 after one outbound call, exactly as for an invalid client payload. -/
theorem validation_maps_to_400_any_step_witness :
    create_something_response
        (fun _ _ => NetResult.ok (some
          { args := [], data := "", files := [], form := [], headers := [],
            json := ⟨"", "bad"⟩, origin := "", url := "" }))
        ⟨"abc", "x"⟩ = (1, HttpOutcome.response 400 none) ∧
    create_something_response faithfulEnv ⟨"", "x"⟩ =
      (0, HttpOutcome.response 400 none) :=
  ⟨validation_maps_to_400_any_step.2.1
      (fun _ _ => NetResult.ok (some
        { args := [], data := "", files := [], form := [], headers := [],
          json := ⟨"", "bad"⟩, origin := "", url := "" }))
      ⟨"abc", "x"⟩ ⟨"", "bad"⟩ rfl (by decide),
   validation_maps_to_400_any_step.1 faithfulEnv ⟨"", "x"⟩ (by decide)⟩
